import Mathlib

/-!
Shallow embedding of the QR-code core of the `rhythmic-be` backend:
the QR-code record schema (`src/models/QRCode.ts`), the generator utilities
(`src/utils/qrCodeGenerator.ts`) and the controller operations
(`src/controllers/qrCodeController.ts`).  The MongoDB store is modelled as a
list of records; each controller handler becomes a pure function from the
store (plus request data) to a result together with the post-state of the
store.
-/

namespace Rhythmic

/-- `QRCodeStatus` enum from `src/models/QRCode.ts`. -/
inductive QRCodeStatus
  | unredeemed
  | redeemed
deriving DecidableEq, Repr

/-- `UserType` enum from `src/models/User.ts`. -/
inductive UserType
  | appUser
  | superAdmin
  | manufacturer
deriving DecidableEq, Repr

/-- One QR-code document (`IQRCode` in `src/models/QRCode.ts`).  `_id` is the
store-assigned identity (modelled as a `Nat`), user references are modelled as
`Nat` ids, dates as `Nat` ticks, and the opaque `metadata` payload as an
association list. -/
structure QRCodeRecord where
  id : Nat
  code : String
  status : QRCodeStatus
  generatedBy : Nat
  batchId : String
  quantity : Nat
  batchNumber : Nat
  isActive : Bool
  redeemedAt : Option Nat
  redeemedBy : Option Nat
  metadata : List (String × String)
  createdAt : Nat
deriving DecidableEq, Repr

/-- The MongoDB collection of QR codes, as a list of documents. -/
abbrev Store := List QRCodeRecord

deriving instance DecidableEq for Except

/-- The fields of a QR-code document outside redemption's write set:
everything except `status`, `redeemedAt` and `redeemedBy`. -/
def sameImmutableFields (r r' : QRCodeRecord) : Bool :=
  r.id == r'.id && r.code == r'.code && r.generatedBy == r'.generatedBy &&
  r.batchId == r'.batchId && r.quantity == r'.quantity &&
  r.batchNumber == r'.batchNumber && r.isActive == r'.isActive &&
  r.metadata == r'.metadata && r.createdAt == r'.createdAt

/-! ## qrCodeGenerator.ts: validation -/

/-- One character of the character class `[a-f0-9]` under the regex `i` flag:
case-insensitive hexadecimal. -/
def isHexCharCI (c : Char) : Bool :=
  (decide ('a' ≤ c) && decide (c ≤ 'f')) ||
  (decide ('A' ≤ c) && decide (c ≤ 'F')) ||
  (decide ('0' ≤ c) && decide (c ≤ '9'))

/-- `isValidQRCode` from `src/utils/qrCodeGenerator.ts`:
`/^[a-f0-9]{8,20}$/i.test(code)`.  Note the `i` flag: the test is
case-insensitive. -/
def isValidQRCode (code : String) : Bool :=
  decide (8 ≤ code.length) && decide (code.length ≤ 20) &&
  code.toList.all isHexCharCI

/-- One character of the character class `[a-f0-9]` without any flag:
lowercase hexadecimal only. -/
def isLowerHexChar (c : Char) : Bool :=
  (decide ('a' ≤ c) && decide (c ≤ 'f')) ||
  (decide ('0' ≤ c) && decide (c ≤ '9'))

/-- The pattern `^[a-f0-9]{8,20}$` as written in the specification (no `i`
flag): lowercase hexadecimal, length 8 to 20.  Used to compare the spec's
validation rule with the implemented one. -/
def matchesLowerHexPattern (code : String) : Bool :=
  decide (8 ≤ code.length) && decide (code.length ≤ 20) &&
  code.toList.all isLowerHexChar

/-! ## qrCodeController.ts: redeemQRCode -/

/-- `QRCode.findOne({ code, status: QRCodeStatus.UNREDEEMED })`: the first
document whose `code` equals the argument and whose `status` is unredeemed.
No condition on `isActive` appears in the query. -/
def findOneUnredeemed (store : Store) (code : String) : Option QRCodeRecord :=
  store.find? fun r => r.code == code && r.status == QRCodeStatus.unredeemed

/-- The in-memory mutation performed by `redeemQRCode` before `save()`:
`qrCode.status = REDEEMED; qrCode.redeemedAt = new Date(); qrCode.redeemedBy
= req.user._id`. -/
def redeemedVersion (r : QRCodeRecord) (actorId now : Nat) : QRCodeRecord :=
  { r with status := QRCodeStatus.redeemed
           redeemedAt := some now
           redeemedBy := some actorId }

/-- `document.save()`: write the document back into the collection at its
`_id`. -/
def saveById (store : Store) (r : QRCodeRecord) : Store :=
  store.map fun x => if x.id = r.id then r else x

/-- Outcome of the `redeemQRCode` handler: HTTP 400 (invalid format),
HTTP 404 (not found or already redeemed), or HTTP 200 with the updated
document. -/
inductive RedeemResult
  | validationError
  | notFound
  | success (r : QRCodeRecord)
deriving DecidableEq, Repr

/-- `true` exactly on the success outcome. -/
def RedeemResult.isSuccess : RedeemResult → Bool
  | .success _ => true
  | _ => false

/-- `redeemQRCode` from `src/controllers/qrCodeController.ts`, lines
302-337: validate the code's format, `findOne` the unredeemed document,
mutate it and `save()`.  Returns the handler outcome and the post-state of
the store. -/
def redeemQRCode (store : Store) (code : String) (actorId now : Nat) :
    RedeemResult × Store :=
  if code == "" || !isValidQRCode code then
    (RedeemResult.validationError, store)
  else
    match findOneUnredeemed store code with
    | none => (RedeemResult.notFound, store)
    | some qr =>
        let qr' := redeemedVersion qr actorId now
        (RedeemResult.success qr', saveById store qr')

/-! ## qrCodeGenerator.ts: code generation

Randomness is modelled by passing the stream of values that
`crypto.randomBytes` would produce: a function from the attempt index to the
list of bytes drawn on that attempt. -/

/-- Render one nibble as a lowercase hexadecimal character, as Node's
`Buffer.toString('hex')` does. -/
def hexDigit (n : Nat) : Char :=
  if n < 10 then Char.ofNat (48 + n) else Char.ofNat (87 + n)

/-- Render one byte as two lowercase hexadecimal characters. -/
def byteToHex (b : Nat) : List Char :=
  [hexDigit ((b / 16) % 16), hexDigit (b % 16)]

/-- `buffer.toString('hex')` on a list of bytes. -/
def bytesToHex (bs : List Nat) : String :=
  String.mk (bs.flatMap byteToHex)

/-- One candidate of `generateUniqueQRCode`:
`crypto.randomBytes(Math.ceil(length / 2)).toString('hex').substring(0, length)`.
The byte list stands for the `randomBytes` draw; `substring(0, length)`
truncates the rendered hex string. -/
def renderCandidate (len : Nat) (bs : List Nat) : String :=
  String.mk ((bytesToHex bs).toList.take len)

/-- The attempt bound of `generateUniqueQRCode` (`const maxAttempts = 100`). -/
def maxAttempts : Nat := 100

/-- The error message thrown when the attempt budget is exhausted. -/
def exhaustedMsg : String :=
  "Unable to generate unique QR code after maximum attempts"

/-- The `while (attempts < maxAttempts)` loop of `generateUniqueQRCode`:
draw a candidate, return it if no stored document has that `code`
(`QRCode.findOne({ code })`), otherwise retry; throw after the budget is
spent.  `remaining` counts the attempts still allowed, `attempt` indexes into
the random stream. -/
def generateUniqueQRCodeAux (len : Nat) (storeCodes : List String)
    (rnd : Nat → List Nat) : Nat → Nat → Except String String
  | _, 0 => Except.error exhaustedMsg
  | attempt, remaining + 1 =>
      let code := renderCandidate len (rnd attempt)
      if storeCodes.contains code then
        generateUniqueQRCodeAux len storeCodes rnd (attempt + 1) remaining
      else
        Except.ok code

/-- `generateUniqueQRCode` from `src/utils/qrCodeGenerator.ts`, lines 60-79.
`storeCodes` is the set of `code` values present in the store when the
existence checks run. -/
def generateUniqueQRCode (len : Nat) (storeCodes : List String)
    (rnd : Nat → List Nat) : Except String String :=
  generateUniqueQRCodeAux len storeCodes rnd 0 maxAttempts

/-- Run `generateUniqueQRCode` for each slot index in the list, propagating
the first rejection (`Promise.all` semantics).  Generation performs no
inserts, so every slot checks the same store snapshot. -/
def generateCodeSlots (len : Nat) (storeCodes : List String)
    (rnds : Nat → Nat → List Nat) : List Nat → Except String (List String)
  | [] => Except.ok []
  | i :: is =>
      match generateUniqueQRCode len storeCodes (rnds i) with
      | Except.error e => Except.error e
      | Except.ok c =>
          match generateCodeSlots len storeCodes rnds is with
          | Except.error e => Except.error e
          | Except.ok cs => Except.ok (c :: cs)

/-- `generateMultipleUniqueQRCodes` from `src/utils/qrCodeGenerator.ts`,
lines 87-102.  Each of the `count` slots runs `generateUniqueQRCode` with its
own random stream (`rnds i`); slots run in groups of 100 under `Promise.all`,
and a rejection of any slot rejects the whole call. -/
def generateMultipleUniqueQRCodes (count len : Nat) (storeCodes : List String)
    (rnds : Nat → Nat → List Nat) : Except String (List String) :=
  generateCodeSlots len storeCodes rnds (List.range count)

/-! ## qrCodeController.ts: generateBulkQRCodes -/

/-- The write effects of `QRCode.insertMany(docs, { ordered: false })`:
every document is attempted, and one whose `code` collides with a document
already in the collection (the unique index on `code`) or inserted earlier
in the same bulk is dropped without aborting the remaining inserts.
First component: the post-state of the collection — the non-colliding
documents persist whether or not the call's promise later resolves.
Second component: the documents actually written — the value the promise
resolves with when no write failed, and what `err.insertedDocs` carries
when it rejects.  Whether the promise resolves or rejects is
`insertManyResolves` below. -/
def insertManyUnordered : Store → List QRCodeRecord → Store × List QRCodeRecord
  | st, [] => (st, [])
  | st, d :: ds =>
      if (st.map (·.code)).contains d.code then
        insertManyUnordered st ds
      else
        ((insertManyUnordered (st ++ [d]) ds).1,
         d :: (insertManyUnordered (st ++ [d]) ds).2)

/-- Whether the `insertMany` promise resolves: without `rawResult`,
mongoose rejects the promise with a `BulkWriteError` as soon as any write
was dropped on the duplicate-key index, so it resolves exactly when every
attempted document was inserted. -/
def insertManyResolves (st : Store) (ds : List QRCodeRecord) : Bool :=
  (insertManyUnordered st ds).2.length == ds.length

/-- The message of the `BulkWriteError` a duplicate-key drop rejects with;
the handler's `catch` surfaces it as `error.message` in a 500 response. -/
def bulkWriteErrMsg : String :=
  "E11000 duplicate key error"

/-- The success payload of `generateBulkQRCodes`: the batch id, the reported
`quantity` (`result.length`) and the inserted codes. -/
structure GenerateSuccess where
  batchId : String
  quantity : Nat
  codes : List String
deriving DecidableEq, Repr

/-- The document construction of `generateBulkQRCodes` (lines 34-41):
`codes.map((code, index) => ({ code, generatedBy, batchId, quantity,
batchNumber: index + 1, metadata }))`, with the store-assigned `_id`
modelled as `idBase + index` and the store timestamp as `now`. -/
def mkBatchDocs (codes : List String) (generatedBy : Nat) (batchId : String)
    (quantity : Nat) (metadata : List (String × String)) (idBase now : Nat) :
    List QRCodeRecord :=
  codes.enum.map fun (i, code) =>
    { id := idBase + i
      code := code
      status := QRCodeStatus.unredeemed
      generatedBy := generatedBy
      batchId := batchId
      quantity := quantity
      batchNumber := i + 1
      isActive := true
      redeemedAt := none
      redeemedBy := none
      metadata := metadata
      createdAt := now : QRCodeRecord }

/-- `generateBulkQRCodes` from `src/controllers/qrCodeController.ts`, lines
11-63: reject quantities above 10000, generate the codes, build the
documents with `batchNumber: index + 1`, and bulk-insert them unordered.
`batchId` stands for the value of `generateBatchId()`.  A generation throw
is caught by the handler's `catch` and reported as an error with the store
untouched.  When the bulk insert drops any duplicate-key document, the
awaited `insertMany` rejects with a `BulkWriteError` and the `catch`
answers with an error as well — but the non-colliding documents are
already persisted, so the post-state keeps them; the 201 response with the
inserted codes is sent only when every document was inserted. -/
def generateBulkQRCodes (store : Store) (quantity len : Nat)
    (generatedBy : Nat) (metadata : List (String × String)) (batchId : String)
    (rnds : Nat → Nat → List Nat) (idBase now : Nat) :
    Except String GenerateSuccess × Store :=
  if quantity > 10000 then
    (Except.error "Cannot generate more than 10,000 QR codes at once", store)
  else
    match generateMultipleUniqueQRCodes quantity len (store.map (·.code)) rnds with
    | Except.error e => (Except.error e, store)
    | Except.ok codes =>
        let qrCodeDocs :=
          mkBatchDocs codes generatedBy batchId quantity metadata idBase now
        if insertManyResolves store qrCodeDocs then
          (Except.ok { batchId := batchId
                       quantity := (insertManyUnordered store qrCodeDocs).2.length
                       codes := (insertManyUnordered store qrCodeDocs).2.map (·.code) },
           (insertManyUnordered store qrCodeDocs).1)
        else
          (Except.error bulkWriteErrMsg, (insertManyUnordered store qrCodeDocs).1)

/-! ## qrCodeController.ts: getQRCodes -/

/-- Case-insensitive substring containment, the semantics of the query
`{ $regex: search, $options: 'i' }` for a plain (metacharacter-free) search
string. -/
def containsSubstrCI (s pat : String) : Bool :=
  let sl := s.toList.map Char.toLower
  let pl := pat.toList.map Char.toLower
  sl.tails.any fun t => pl.isPrefixOf t

/-- The Mongo query object built by `getQRCodes` (lines 77-105): optional
equality conditions on `status`, `batchId` and `generatedBy`, plus the
`$or` search clause.  Absent request parameters are `none`. -/
structure ListQuery where
  status : Option QRCodeStatus
  batchId : Option String
  generatedBy : Option Nat
  search : Option String
deriving DecidableEq, Repr

/-- Whether a document matches a `ListQuery` (conjunction of the present
conditions; the search clause is a disjunction over `code` and `batchId`). -/
def matchesListQuery (q : ListQuery) (r : QRCodeRecord) : Bool :=
  (match q.status with | none => true | some s => r.status == s) &&
  (match q.batchId with | none => true | some b => r.batchId == b) &&
  (match q.generatedBy with | none => true | some g => r.generatedBy == g) &&
  (match q.search with
   | none => true
   | some s => containsSubstrCI r.code s || containsSubstrCI r.batchId s)

/-- The query construction of `getQRCodes`: start from the request filters
and then, when the requester is a manufacturer, overwrite `generatedBy` with
the requester's own id (lines 102-105) — this runs after the filter handling,
so it overrides any supplied `generatedBy` parameter. -/
def buildListQuery (statusF : Option QRCodeStatus) (batchIdF : Option String)
    (searchF : Option String) (generatedByF : Option Nat)
    (userType : UserType) (userId : Nat) : ListQuery :=
  let q : ListQuery :=
    { status := statusF, batchId := batchIdF
      generatedBy := generatedByF, search := searchF }
  if userType == UserType.manufacturer then
    { q with generatedBy := some userId }
  else q

/-- Stable insertion into a list kept in descending `createdAt` order. -/
def insertDesc (r : QRCodeRecord) : List QRCodeRecord → List QRCodeRecord
  | [] => [r]
  | x :: xs =>
      if r.createdAt ≤ x.createdAt then x :: insertDesc r xs
      else r :: x :: xs

/-- `.sort({ createdAt: -1 })`: sort the matching documents by `createdAt`
descending. -/
def sortByCreatedAtDesc : List QRCodeRecord → List QRCodeRecord
  | [] => []
  | x :: xs => insertDesc x (sortByCreatedAtDesc xs)

/-- `getQRCodes` from `src/controllers/qrCodeController.ts`, lines 66-131:
build the query, `find` the matching documents, sort by `createdAt`
descending, skip `(page - 1) * limit` and take `limit`. -/
def getQRCodes (store : Store) (statusF : Option QRCodeStatus)
    (batchIdF : Option String) (searchF : Option String)
    (generatedByF : Option Nat) (userType : UserType) (userId : Nat)
    (page limit : Nat) : List QRCodeRecord :=
  let q := buildListQuery statusF batchIdF searchF generatedByF userType userId
  ((sortByCreatedAtDesc (store.filter (matchesListQuery q))).drop
      ((page - 1) * limit)).take limit

/-! ## qrCodeController.ts: deleteQRCode (single) -/

/-- Outcome of the single-delete handler. -/
inductive DeleteOneResult
  | notFound
  | accessDenied
  | deleted (id : Nat) (code batchId : String)
deriving DecidableEq, Repr

/-- `QRCode.findById`. -/
def findById (store : Store) (id : Nat) : Option QRCodeRecord :=
  store.find? fun r => r.id == id

/-- `deleteQRCode` from `src/controllers/qrCodeController.ts`, lines
212-242: `findById`, deny a manufacturer whose id differs from the
document's `generatedBy`, otherwise `findByIdAndDelete`. -/
def deleteQRCode (store : Store) (id : Nat) (userType : UserType)
    (userId : Nat) : DeleteOneResult × Store :=
  match findById store id with
  | none => (DeleteOneResult.notFound, store)
  | some qr =>
      if userType == UserType.manufacturer && !(qr.generatedBy == userId) then
        (DeleteOneResult.accessDenied, store)
      else
        (DeleteOneResult.deleted qr.id qr.code qr.batchId,
         store.filter fun x => !(x.id == id))

/-! ## qrCodeController.ts: bulkDeleteQRCodes -/

/-- Which records a bulk-delete query selects: by `batchId` or by an
`$in` list of `_id` values. -/
inductive DeleteSelector
  | byBatch (b : String)
  | byIds (ids : List Nat)
deriving DecidableEq, Repr

/-- The Mongo query of `bulkDeleteQRCodes`: a selector plus the
manufacturer ownership condition when present. -/
structure DeleteQuery where
  sel : DeleteSelector
  generatedBy : Option Nat
deriving DecidableEq, Repr

/-- Whether a document matches a bulk-delete query. -/
def matchesDeleteQuery (q : DeleteQuery) (r : QRCodeRecord) : Bool :=
  (match q.sel with
   | DeleteSelector.byBatch b => r.batchId == b
   | DeleteSelector.byIds ids => ids.contains r.id) &&
  (match q.generatedBy with | none => true | some g => r.generatedBy == g)

/-- Outcome of the bulk-delete handler. -/
inductive BulkDeleteResult
  | badRequest (msg : String)
  | notFound
  | ok (deletedCount : Nat) (deleted : List QRCodeRecord)
deriving DecidableEq, Repr

/-- JavaScript truthiness of an optional string request field: absent or
empty is falsy. -/
def truthyStr : Option String → Bool
  | none => false
  | some s => !(s == "")

/-- JavaScript truthiness of an optional array request field: an array is
truthy even when empty. -/
def truthyArr : Option (List Nat) → Bool
  | none => false
  | some _ => true

/-- The query-selector construction of `bulkDeleteQRCodes` (lines 260-269):
`if (batchId) { query.batchId = batchId } else if (Array.isArray(qrCodeIds)
&& qrCodeIds.length > 0) { query._id = { $in: qrCodeIds } } else` 400 —
`batchId` takes precedence, `qrCodeIds` is examined only when `batchId` is
falsy. -/
def bulkDeleteSelector (qrCodeIds : Option (List Nat))
    (batchId : Option String) : Option DeleteSelector :=
  if truthyStr batchId then
    some (DeleteSelector.byBatch (batchId.getD ""))
  else
    match qrCodeIds with
    | some ids =>
        if ids.length > 0 then some (DeleteSelector.byIds ids) else none
    | none => none

/-- `bulkDeleteQRCodes` from `src/controllers/qrCodeController.ts`, lines
245-299: reject when neither field is supplied; build the query with
`batchId` taking precedence over `qrCodeIds`; scope a manufacturer to its
own documents; `find` the targets, 404 when none, then `deleteMany` with
the same query. -/
def bulkDeleteQRCodes (store : Store) (qrCodeIds : Option (List Nat))
    (batchId : Option String) (userType : UserType) (userId : Nat) :
    BulkDeleteResult × Store :=
  if !truthyArr qrCodeIds && !truthyStr batchId then
    (BulkDeleteResult.badRequest "Either qrCodeIds or batchId must be provided.",
     store)
  else
    match bulkDeleteSelector qrCodeIds batchId with
    | none => (BulkDeleteResult.badRequest "Invalid qrCodeIds or batchId.", store)
    | some sel =>
        let q : DeleteQuery :=
          { sel := sel
            generatedBy :=
              if userType == UserType.manufacturer then some userId else none }
        let found := store.filter (matchesDeleteQuery q)
        if found.isEmpty then
          (BulkDeleteResult.notFound, store)
        else
          (BulkDeleteResult.ok found.length found,
           store.filter fun r => !matchesDeleteQuery q r)

/-! ## The redemption race

`redeemQRCode` touches the store twice: a `findOne` and then a separate
`save()`.  Request handlers run concurrently with no shared in-process
state, so two handlers redeeming the same code interleave these two store
operations arbitrarily.  The model below runs two such handlers, A and B,
on the same (already format-validated) code under an explicit schedule. -/

/-- The joint state of the store and of two in-flight `redeemQRCode`
handlers: each handler's fetched document and its outcome
(`some true` = HTTP 200 success, `some false` = HTTP 404). -/
structure RaceState where
  store : Store
  foundA : Option QRCodeRecord
  foundB : Option QRCodeRecord
  okA : Option Bool
  okB : Option Bool
deriving DecidableEq, Repr

/-- The two store operations of each handler. -/
inductive RaceEv
  | lookupA
  | lookupB
  | writeA
  | writeB
deriving DecidableEq, Repr

/-- One store operation of the two-handler race: a lookup runs
`findOneUnredeemed` against the current store (resolving 404 when it
misses); a write runs `save()` on the fetched document, mutated exactly as
`redeemQRCode` mutates it, and resolves success. -/
def raceStep (code : String) (actorA actorB tA tB : Nat) (s : RaceState) :
    RaceEv → RaceState
  | RaceEv.lookupA =>
      match findOneUnredeemed s.store code with
      | none => { s with foundA := none, okA := some false }
      | some r => { s with foundA := some r }
  | RaceEv.lookupB =>
      match findOneUnredeemed s.store code with
      | none => { s with foundB := none, okB := some false }
      | some r => { s with foundB := some r }
  | RaceEv.writeA =>
      match s.foundA with
      | none => s
      | some r =>
          { s with store := saveById s.store (redeemedVersion r actorA tA)
                   okA := some true }
  | RaceEv.writeB =>
      match s.foundB with
      | none => s
      | some r =>
          { s with store := saveById s.store (redeemedVersion r actorB tB)
                   okB := some true }

/-- Run a schedule of store operations from an initial store, both handlers
not yet started. -/
def raceRun (code : String) (actorA actorB tA tB : Nat) (store : Store)
    (sched : List RaceEv) : RaceState :=
  sched.foldl (raceStep code actorA actorB tA tB)
    { store := store, foundA := none, foundB := none, okA := none, okB := none }

/-! ## Concrete fixtures used by the counterexamples and witnesses -/

/-- An unredeemed, active document with code `"aaaaaaaa"`, generated by
user 7. -/
def recA : QRCodeRecord :=
  { id := 1, code := "aaaaaaaa", status := QRCodeStatus.unredeemed
    generatedBy := 7, batchId := "batch_b_1", quantity := 1, batchNumber := 1
    isActive := true, redeemedAt := none, redeemedBy := none
    metadata := [], createdAt := 0 }

/-- An unredeemed document whose `isActive` flag is `false`. -/
def inactiveRec : QRCodeRecord :=
  { recA with id := 2, code := "cccccccc", isActive := false }

/-- A document generated by user 8 (a different owner than `recA`). -/
def recB : QRCodeRecord :=
  { recA with id := 3, code := "dddddddd", generatedBy := 8
              batchId := "batch_b_2", createdAt := 1 }

/-- Random streams where slots 0 and 1 both draw the bytes rendering
`"aaaaaaaa"` on every attempt and every other slot draws the bytes rendering
`"bbbbbbbb"`: a within-group duplicate candidate pair. -/
def rndsDup : Nat → Nat → List Nat
  | 0, _ => [170, 170, 170, 170]
  | 1, _ => [170, 170, 170, 170]
  | _, _ => [187, 187, 187, 187]

/-- Random streams where slot 0 draws the bytes rendering `"aaaaaaaa"` on
every one of its attempts and every other slot draws the bytes rendering
`"bbbbbbbb"`. -/
def rndsStuck : Nat → Nat → List Nat
  | 0, _ => [170, 170, 170, 170]
  | _, _ => [187, 187, 187, 187]

/-- Random streams where slot `i` draws the five bytes
`[i, 17, 34, 51, 68]`: ten-character candidates, pairwise distinct across
the first 16 slots. -/
def rndsDistinct : Nat → Nat → List Nat :=
  fun i _ => [i % 16, 17, 34, 51, 68]

/-- A freshly generated document of a generation request by user 7, used to
spell out expected post-states in witnesses. -/
def wRec (idv : Nat) (codev : String) (bn : Nat) (b : String) (q ts : Nat) :
    QRCodeRecord :=
  { id := idv, code := codev, status := QRCodeStatus.unredeemed
    generatedBy := 7, batchId := b, quantity := q, batchNumber := bn
    isActive := true, redeemedAt := none, redeemedBy := none
    metadata := [], createdAt := ts }

/-- The response of a two-code request on the empty store drawn from
`rndsDistinct`. -/
def genOutW : GenerateSuccess :=
  { batchId := "batch_w", quantity := 2
    codes := ["0011223344", "0111223344"] }

/-- The post-state of that two-code request. -/
def storeW : Store :=
  [wRec 300 "0011223344" 1 "batch_w" 2 5,
   wRec 301 "0111223344" 2 "batch_w" 2 5]

/-- The response of a five-code request on the empty store drawn from
`rndsDistinct`. -/
def genOutV : GenerateSuccess :=
  { batchId := "batch_v", quantity := 5
    codes := ["0011223344", "0111223344", "0211223344", "0311223344",
              "0411223344"] }

/-- The post-state of that five-code request. -/
def storeV : Store :=
  [wRec 400 "0011223344" 1 "batch_v" 5 6,
   wRec 401 "0111223344" 2 "batch_v" 5 6,
   wRec 402 "0211223344" 3 "batch_v" 5 6,
   wRec 403 "0311223344" 4 "batch_v" 5 6,
   wRec 404 "0411223344" 5 "batch_v" 5 6]

/-! ## Theorems -/

/-- C3 counterexample: the string `"DEADBEEF"` consists of uppercase
hexadecimal characters, so it does not match the spec's pattern
`^[a-f0-9]{8,20}$`; the claim says redemption must reject it with
`ValidationError`, but `isValidQRCode` accepts it (the source regex carries
the `i` flag) and the handler proceeds to the store lookup, answering
`NotFound` on an empty store. -/
theorem C3_uppercase_accepted_counterexample :
    matchesLowerHexPattern "DEADBEEF" = false ∧
    isValidQRCode "DEADBEEF" = true ∧
    redeemQRCode [] "DEADBEEF" 1 0 = (RedeemResult.notFound, []) := by
  decide

/-- C3 (amended): redemption fails with `ValidationError`, before any store
access (the store is returned unchanged and the outcome does not consult
it), if and only if the string fails `isValidQRCode`, i.e. the
case-insensitive pattern `^[a-f0-9]{8,20}$/i`; uppercase hexadecimal
characters are accepted, not rejected. -/
theorem C3_validation_iff_ci_pattern (store : Store) (code : String)
    (a t : Nat) :
    ((redeemQRCode store code a t).1 = RedeemResult.validationError ↔
      isValidQRCode code = false) ∧
    (isValidQRCode code = false →
      redeemQRCode store code a t = (RedeemResult.validationError, store)) := by
  rcases hv : isValidQRCode code with _ | _
  · have hguard : (code == "" || !isValidQRCode code) = true := by
      simp [hv]
    constructor
    · simp [redeemQRCode, hguard]
    · intro _
      simp [redeemQRCode, hguard]
  · have hne : (code == "") = false := by
      rcases he : code == "" with _ | _
      · rfl
      · exfalso
        have : code = "" := by
          simpa using he
        rw [this] at hv
        exact absurd hv (by decide)
    have hguard : (code == "" || !isValidQRCode code) = false := by
      simp [hv, hne]
    constructor
    · rw [redeemQRCode]
      simp only [hguard, Bool.false_eq_true, if_false]
      rcases hf : findOneUnredeemed store code with _ | qr
      · simp
      · simp
    · intro hcontra
      exact absurd hcontra (by decide)

/-- C3 witness: the theorem applied to the malformed string `"zzzzzzzz"`. -/
theorem C3_validation_iff_ci_pattern_witness :
    ((redeemQRCode [] "zzzzzzzz" 1 0).1 = RedeemResult.validationError ↔
      isValidQRCode "zzzzzzzz" = false) ∧
    (isValidQRCode "zzzzzzzz" = false →
      redeemQRCode [] "zzzzzzzz" 1 0 = (RedeemResult.validationError, [])) :=
  C3_validation_iff_ci_pattern [] "zzzzzzzz" 1 0

/-- A string accepted by `isValidQRCode` has at least 8 characters, so it is
not the empty string. -/
theorem valid_code_ne_empty {code : String}
    (h : isValidQRCode code = true) : (code == "") = false := by
  rcases he : code == "" with _ | _
  · rfl
  · exfalso
    have hc : code = "" := by simpa using he
    rw [hc] at h
    exact absurd h (by decide)

/-- C4 counterexample: a well-formed, unredeemed document whose `isActive`
flag is `false`.  The claim says redemption must answer `NotFound` and leave
the store unchanged; the handler's `findOne` filters only on `code` and
`status`, so it finds the inactive document, redeems it and writes the store.
-/
theorem C4_inactive_redeemed_counterexample :
    inactiveRec.isActive = false ∧
    isValidQRCode "cccccccc" = true ∧
    (redeemQRCode [inactiveRec] "cccccccc" 5 9).1 ≠ RedeemResult.notFound ∧
    (redeemQRCode [inactiveRec] "cccccccc" 5 9).1.isSuccess = true ∧
    (redeemQRCode [inactiveRec] "cccccccc" 5 9).2 ≠ [inactiveRec] := by
  decide

/-- C4 (amended): for every well-formed code, redemption fails with
`NotFound` exactly when no record matches `code = X AND status = Unredeemed`
— the code never existed or is already redeemed; `isActive` plays no part in
the lookup, so an inactive unredeemed record is redeemed rather than
reported `NotFound`.  When the lookup misses, the store is unchanged. -/
theorem C4_notFound_iff_no_unredeemed_match (store : Store) (code : String)
    (a t : Nat) (hval : isValidQRCode code = true) :
    ((redeemQRCode store code a t).1 = RedeemResult.notFound ↔
      findOneUnredeemed store code = none) ∧
    (findOneUnredeemed store code = none →
      redeemQRCode store code a t = (RedeemResult.notFound, store)) := by
  have hguard : (code == "" || !isValidQRCode code) = false := by
    simp [hval, valid_code_ne_empty hval]
  rcases hf : findOneUnredeemed store code with _ | qr
  · constructor
    · simp [redeemQRCode, hguard, hf]
    · intro _
      simp [redeemQRCode, hguard, hf]
  · constructor
    · simp [redeemQRCode, hguard, hf]
    · intro hcontra
      exact absurd hcontra (by simp)

/-- C4 witness: the theorem applied to a store holding the unredeemed
document `recA`. -/
theorem C4_notFound_iff_no_unredeemed_match_witness :
    isValidQRCode "aaaaaaaa" = true ∧
    (((redeemQRCode [recA] "aaaaaaaa" 5 9).1 = RedeemResult.notFound ↔
        findOneUnredeemed [recA] "aaaaaaaa" = none) ∧
     (findOneUnredeemed [recA] "aaaaaaaa" = none →
        redeemQRCode [recA] "aaaaaaaa" 5 9 = (RedeemResult.notFound, [recA]))) :=
  ⟨by decide, C4_notFound_iff_no_unredeemed_match [recA] "aaaaaaaa" 5 9 (by decide)⟩

/-- After the redeeming `save()`, no document with the same code is still
unredeemed — provided the store's codes are unique (the store-layer unique
index on `code`). -/
theorem findOneUnredeemed_after_save (store : Store) (code : String)
    (r : QRCodeRecord) (a t : Nat)
    (hnodup : (store.map (·.code)).Nodup)
    (hfind : findOneUnredeemed store code = some r) :
    findOneUnredeemed (saveById store (redeemedVersion r a t)) code = none := by
  have hfind' : store.find?
      (fun x => x.code == code && x.status == QRCodeStatus.unredeemed) =
      some r := hfind
  have hrmem : r ∈ store := List.mem_of_find?_eq_some hfind'
  have hrp := List.find?_some hfind'
  have hrcode : r.code = code := by
    simp only [Bool.and_eq_true, beq_iff_eq] at hrp
    exact hrp.1
  apply List.find?_eq_none.mpr
  intro x hx
  rcases List.mem_map.mp hx with ⟨y, hy, hxy⟩
  by_cases hid : y.id = (redeemedVersion r a t).id
  · rw [if_pos hid] at hxy
    rw [← hxy]
    simp [redeemedVersion]
  · rw [if_neg hid] at hxy
    rw [← hxy]
    intro hpy
    have hycode : y.code = code := by
      have := (Bool.and_eq_true _ _).mp hpy
      exact beq_iff_eq.mp this.1
    have hyr : y = r :=
      List.inj_on_of_nodup_map hnodup hy hrmem (by rw [hycode, hrcode])
    apply hid
    rw [hyr]
    simp [redeemedVersion]

/-- C6: on a store whose codes are unique (the store's unique index), with a
valid, unredeemed matching code, redeeming the same code twice in sequence
yields success on the first call and `NotFoundError` on the second. -/
theorem C6_sequential_double_redeem (store : Store) (code : String)
    (a1 a2 t1 t2 : Nat) (r : QRCodeRecord)
    (hnodup : (store.map (·.code)).Nodup)
    (hval : isValidQRCode code = true)
    (hfind : findOneUnredeemed store code = some r) :
    (redeemQRCode store code a1 t1).1.isSuccess = true ∧
    (redeemQRCode (redeemQRCode store code a1 t1).2 code a2 t2).1 =
      RedeemResult.notFound := by
  have hguard : (code == "" || !isValidQRCode code) = false := by
    simp [hval, valid_code_ne_empty hval]
  have hfst : redeemQRCode store code a1 t1 =
      (RedeemResult.success (redeemedVersion r a1 t1),
       saveById store (redeemedVersion r a1 t1)) := by
    simp [redeemQRCode, hguard, hfind]
  constructor
  · rw [hfst]
    rfl
  · rw [hfst]
    have hnone := findOneUnredeemed_after_save store code r a1 t1 hnodup hfind
    simp [redeemQRCode, hguard, hnone]

/-- C6 witness: the theorem applied to the one-record store `[recA]`. -/
theorem C6_sequential_double_redeem_witness :
    (redeemQRCode [recA] "aaaaaaaa" 5 9).1.isSuccess = true ∧
    (redeemQRCode (redeemQRCode [recA] "aaaaaaaa" 5 9).2 "aaaaaaaa" 6 10).1 =
      RedeemResult.notFound :=
  C6_sequential_double_redeem [recA] "aaaaaaaa" 5 6 9 10 recA
    (by decide) (by decide) (by decide)

/-- C9: a successful redemption changes only `status`, `redeemedAt` and
`redeemedBy` on the matched record (all other fields agree with the fetched
document), writes exactly that record back at its `_id`, and leaves every
other record in the store unchanged. -/
theorem C9_redeem_frame (store : Store) (code : String) (a t : Nat)
    (r' : QRCodeRecord) (st' : Store)
    (h : redeemQRCode store code a t = (RedeemResult.success r', st')) :
    (findOneUnredeemed store code).any (fun r => sameImmutableFields r r') = true ∧
    r'.status = QRCodeStatus.redeemed ∧
    r'.redeemedAt = some t ∧
    r'.redeemedBy = some a ∧
    st' = saveById store r' ∧
    (store.filter (fun x => !(x.id == r'.id))).all
      (fun x => decide (x ∈ st')) = true := by
  rcases hg : (code == "" || !isValidQRCode code) with _ | _
  · rcases hf : findOneUnredeemed store code with _ | qr
    · rw [redeemQRCode, hg, hf] at h
      simp at h
    · rw [redeemQRCode, hg, hf] at h
      simp only [Bool.false_eq_true, if_false, Prod.mk.injEq,
        RedeemResult.success.injEq] at h
      rcases h with ⟨hr', hst'⟩
      subst hr'
      subst hst'
      refine ⟨?_, rfl, rfl, rfl, rfl, ?_⟩
      · simp [Option.any, sameImmutableFields, redeemedVersion]
      · apply List.all_eq_true.mpr
        intro x hx
        rcases List.mem_filter.mp hx with ⟨hxs, hxid⟩
        apply decide_eq_true
        apply List.mem_map.mpr
        refine ⟨x, hxs, ?_⟩
        have : (x.id == (redeemedVersion qr a t).id) = false := by
          simpa using hxid
        rw [if_neg (by simpa using this)]
  · rw [redeemQRCode, hg] at h
    simp at h

/-- C9 witness: the theorem applied to the two-record store `[recA, recB]`
with the matched record `recA`. -/
theorem C9_redeem_frame_witness :
    (findOneUnredeemed [recA, recB] "aaaaaaaa").any
      (fun r => sameImmutableFields r (redeemedVersion recA 5 9)) = true ∧
    (redeemedVersion recA 5 9).status = QRCodeStatus.redeemed ∧
    (redeemedVersion recA 5 9).redeemedAt = some 9 ∧
    (redeemedVersion recA 5 9).redeemedBy = some 5 ∧
    [redeemedVersion recA 5 9, recB] =
      saveById [recA, recB] (redeemedVersion recA 5 9) ∧
    ([recA, recB].filter
        (fun x => !(x.id == (redeemedVersion recA 5 9).id))).all
      (fun x => decide (x ∈ [redeemedVersion recA 5 9, recB])) = true :=
  C9_redeem_frame [recA, recB] "aaaaaaaa" 5 9 (redeemedVersion recA 5 9)
    [redeemedVersion recA 5 9, recB] (by decide)

/-- C1: the implemented redemption is not one atomic conditional store
operation — it is a `findOne` followed by a separate `save()` — and under
the interleaving where both handlers run their lookup before either write,
two concurrent `RedeemCode` calls on the same code both return success
(instead of exactly one success and one `NotFoundError`); the final store
keeps only the last writer's `redeemedBy`, although both callers were told
they redeemed the code. -/
theorem C1_redeem_race_double_success :
    (raceRun "aaaaaaaa" 5 6 10 11 [recA]
        [RaceEv.lookupA, RaceEv.lookupB, RaceEv.writeA, RaceEv.writeB]).okA =
      some true ∧
    (raceRun "aaaaaaaa" 5 6 10 11 [recA]
        [RaceEv.lookupA, RaceEv.lookupB, RaceEv.writeA, RaceEv.writeB]).okB =
      some true ∧
    (raceRun "aaaaaaaa" 5 6 10 11 [recA]
        [RaceEv.lookupA, RaceEv.lookupB, RaceEv.writeA, RaceEv.writeB]).store =
      [redeemedVersion recA 6 11] := by
  decide

/-- When `batchId` is a non-empty string, `bulkDeleteQRCodes` runs the
by-batch query whatever `qrCodeIds` holds: the guard `if (batchId)` is
tested before `qrCodeIds` is even looked at. -/
theorem bulkDelete_run_byBatch (store : Store) (oids : Option (List Nat))
    (b : String) (ut : UserType) (uid : Nat) (hb : (b == "") = false) :
    bulkDeleteQRCodes store oids (some b) ut uid =
      (let q : DeleteQuery :=
        { sel := DeleteSelector.byBatch b
          generatedBy :=
            if ut == UserType.manufacturer then some uid else none }
       let found := store.filter (matchesDeleteQuery q)
       if found.isEmpty then (BulkDeleteResult.notFound, store)
       else (BulkDeleteResult.ok found.length found,
             store.filter fun r => !matchesDeleteQuery q r)) := by
  cases oids <;>
    simp [bulkDeleteQRCodes, bulkDeleteSelector, truthyStr, truthyArr, hb]

/-- C10: when a bulk-delete request supplies both a (non-empty) `batchId`
and a non-empty `qrCodeIds` list, deletion is performed by `batchId` only:
the call is indistinguishable from one without `qrCodeIds`; a record named
in the id list but outside the batch survives; and every actor-visible
record of the batch is removed even if absent from the id list. -/
theorem C10_batchId_precedence (store : Store) (ids : List Nat) (b : String)
    (ut : UserType) (uid : Nat)
    (hb : (b == "") = false) (hids : ids ≠ []) :
    bulkDeleteQRCodes store (some ids) (some b) ut uid =
      bulkDeleteQRCodes store none (some b) ut uid ∧
    (store.filter (fun r => ids.contains r.id && !(r.batchId == b))).all
      (fun r =>
        decide (r ∈ (bulkDeleteQRCodes store (some ids) (some b) ut uid).2)) =
      true ∧
    (store.filter (fun r => r.batchId == b &&
        (!(ut == UserType.manufacturer) || r.generatedBy == uid))).all
      (fun r =>
        !decide (r ∈ (bulkDeleteQRCodes store (some ids) (some b) ut uid).2)) =
      true := by
  have hrun := bulkDelete_run_byBatch store (some ids) b ut uid hb
  have hrun' := bulkDelete_run_byBatch store none b ut uid hb
  refine ⟨hrun.trans hrun'.symm, ?_, ?_⟩
  · apply List.all_eq_true.mpr
    intro r hr
    rcases List.mem_filter.mp hr with ⟨hrs, hcond⟩
    have hnb : (r.batchId == b) = false := by
      simp only [Bool.and_eq_true, Bool.not_eq_eq_eq_not, Bool.not_true] at hcond
      exact hcond.2
    have hnomatch : ∀ g, matchesDeleteQuery
        { sel := DeleteSelector.byBatch b, generatedBy := g } r = false := by
      intro g
      simp [matchesDeleteQuery, hnb]
    apply decide_eq_true
    rw [hrun]
    rcases hfe : (store.filter (matchesDeleteQuery
        { sel := DeleteSelector.byBatch b
          generatedBy :=
            if ut == UserType.manufacturer then some uid else none })).isEmpty
      with _ | _
    · simp only [hfe, Bool.false_eq_true, if_false]
      exact List.mem_filter.mpr ⟨hrs, by simp [hnomatch]⟩
    · simp only [hfe, if_true]
      exact hrs
  · apply List.all_eq_true.mpr
    intro r hr
    rcases List.mem_filter.mp hr with ⟨hrs, hcond⟩
    have hmatch : matchesDeleteQuery
        { sel := DeleteSelector.byBatch b
          generatedBy :=
            if ut == UserType.manufacturer then some uid else none } r = true := by
      simp only [Bool.and_eq_true] at hcond
      rcases hm : ut == UserType.manufacturer with _ | _
      · simp [matchesDeleteQuery, hm, hcond.1]
      · rcases hcond.2 with h2
        rw [hm] at h2
        simp only [Bool.not_true, Bool.false_or] at h2
        simp [matchesDeleteQuery, hm, hcond.1, h2]
    have hrin0 : r ∈ store.filter (matchesDeleteQuery
        { sel := DeleteSelector.byBatch b
          generatedBy :=
            if ut == UserType.manufacturer then some uid else none }) :=
      List.mem_filter.mpr ⟨hrs, hmatch⟩
    have hfe : (store.filter (matchesDeleteQuery
        { sel := DeleteSelector.byBatch b
          generatedBy :=
            if ut == UserType.manufacturer then some uid else none })).isEmpty
        = false := by
      rcases hfe' : (store.filter (matchesDeleteQuery
          { sel := DeleteSelector.byBatch b
            generatedBy :=
              if ut == UserType.manufacturer then some uid
              else none })).isEmpty with _ | _
      · rfl
      · exfalso
        rw [List.isEmpty_iff.mp hfe'] at hrin0
        exact absurd hrin0 (List.not_mem_nil r)
    rw [hrun]
    simp only [hfe, Bool.false_eq_true, if_false]
    have hdec : decide (r ∈ store.filter fun x =>
        !matchesDeleteQuery
          { sel := DeleteSelector.byBatch b
            generatedBy :=
              if ut == UserType.manufacturer then some uid else none } x) =
        false := by
      apply decide_eq_false
      intro hrin
      rcases List.mem_filter.mp hrin with ⟨_, hkeep⟩
      rw [hmatch] at hkeep
      exact absurd hkeep (by decide)
    rw [hdec]
    rfl

/-- C10 witness: the theorem applied to the store `[recA, recB]`, a
manufacturer actor 7, batch `"batch_b_1"` and the id list `[3]` (which names
only `recB`, a record outside the batch). -/
theorem C10_batchId_precedence_witness :
    bulkDeleteQRCodes [recA, recB] (some [3]) (some "batch_b_1")
        UserType.manufacturer 7 =
      bulkDeleteQRCodes [recA, recB] none (some "batch_b_1")
        UserType.manufacturer 7 ∧
    ([recA, recB].filter
        (fun r => [3].contains r.id && !(r.batchId == "batch_b_1"))).all
      (fun r => decide (r ∈ (bulkDeleteQRCodes [recA, recB] (some [3])
        (some "batch_b_1") UserType.manufacturer 7).2)) = true ∧
    ([recA, recB].filter (fun r => r.batchId == "batch_b_1" &&
        (!(UserType.manufacturer == UserType.manufacturer) ||
          r.generatedBy == 7))).all
      (fun r => !decide (r ∈ (bulkDeleteQRCodes [recA, recB] (some [3])
        (some "batch_b_1") UserType.manufacturer 7).2)) = true :=
  C10_batchId_precedence [recA, recB] [3] "batch_b_1" UserType.manufacturer 7
    (by decide) (by decide)

/-- Membership in `insertDesc`: the inserted record plus the old members. -/
theorem mem_insertDesc {x r : QRCodeRecord} {l : List QRCodeRecord} :
    x ∈ insertDesc r l ↔ x = r ∨ x ∈ l := by
  induction l with
  | nil => simp [insertDesc]
  | cons y ys ih =>
      rw [insertDesc]
      by_cases h : r.createdAt ≤ y.createdAt
      · rw [if_pos h]
        simp only [List.mem_cons, ih]
        tauto
      · rw [if_neg h]
        simp only [List.mem_cons]

/-- Sorting by `createdAt` does not change membership. -/
theorem mem_sortByCreatedAtDesc {x : QRCodeRecord} {l : List QRCodeRecord} :
    x ∈ sortByCreatedAtDesc l ↔ x ∈ l := by
  induction l with
  | nil => simp [sortByCreatedAtDesc]
  | cons y ys ih =>
      rw [sortByCreatedAtDesc]
      rw [mem_insertDesc]
      simp only [List.mem_cons, ih]

/-- The post-state of `bulkDeleteQRCodes` is the original store (on the
error and not-found paths) or the store filtered by the negation of a
delete query whose ownership condition is the manufacturer scoping. -/
theorem bulkDelete_post (store : Store) (qids : Option (List Nat))
    (bid : Option String) (ut : UserType) (uid : Nat) :
    (bulkDeleteQRCodes store qids bid ut uid).2 = store ∨
    ∃ sel, (bulkDeleteQRCodes store qids bid ut uid).2 =
      store.filter fun r => !matchesDeleteQuery
        { sel := sel
          generatedBy :=
            if ut == UserType.manufacturer then some uid else none } r := by
  unfold bulkDeleteQRCodes
  split
  · exact Or.inl rfl
  · split
    · exact Or.inl rfl
    · rcases hm : ut == UserType.manufacturer with _ | _
      · simp only [hm, Bool.false_eq_true, if_false]
        split
        · exact Or.inl rfl
        · exact Or.inr ⟨_, rfl⟩
      · simp only [hm, if_true]
        split
        · exact Or.inl rfl
        · exact Or.inr ⟨_, rfl⟩

/-- C8: a manufacturer actor lists only records it generated — even when the
request supplies a different `generatedBy` filter — and neither the single-
nor the bulk-delete operation removes a record generated by someone else
(assuming the store-layer uniqueness of `_id`). -/
theorem C8_manufacturer_scoping (store : Store) (statusF : Option QRCodeStatus)
    (batchIdF : Option String) (searchF : Option String)
    (generatedByF : Option Nat) (uid page limit did : Nat)
    (qids : Option (List Nat)) (bid : Option String)
    (hids : (store.map (·.id)).Nodup) :
    (getQRCodes store statusF batchIdF searchF generatedByF
        UserType.manufacturer uid page limit).all
      (fun r => r.generatedBy == uid) = true ∧
    (store.filter (fun x => !(x.generatedBy == uid))).all
      (fun x =>
        decide (x ∈ (deleteQRCode store did UserType.manufacturer uid).2)) =
      true ∧
    (store.filter (fun x => !(x.generatedBy == uid))).all
      (fun x =>
        decide (x ∈ (bulkDeleteQRCodes store qids bid
          UserType.manufacturer uid).2)) = true := by
  refine ⟨?_, ?_, ?_⟩
  · apply List.all_eq_true.mpr
    intro r hr
    have hr1 := List.mem_of_mem_take hr
    have hr2 := List.mem_of_mem_drop hr1
    have hr3 := mem_sortByCreatedAtDesc.mp hr2
    rcases List.mem_filter.mp hr3 with ⟨_, hmq⟩
    have hq : buildListQuery statusF batchIdF searchF generatedByF
        UserType.manufacturer uid =
        { status := statusF, batchId := batchIdF
          generatedBy := some uid, search := searchF } := by
      simp [buildListQuery]
    rw [hq] at hmq
    simp only [matchesListQuery, Bool.and_eq_true] at hmq
    exact hmq.1.2
  · apply List.all_eq_true.mpr
    intro x hx
    rcases List.mem_filter.mp hx with ⟨hxs, hxg⟩
    apply decide_eq_true
    unfold deleteQRCode
    rcases hfb : findById store did with _ | qr
    · exact hxs
    · have hqrid : qr.id = did := by
        have hfb' : store.find? (fun r => r.id == did) = some qr := hfb
        have := List.find?_some hfb'
        simpa using this
      have hqrmem : qr ∈ store := by
        have hfb' : store.find? (fun r => r.id == did) = some qr := hfb
        exact List.mem_of_find?_eq_some hfb'
      rcases hown : qr.generatedBy == uid with _ | _
      · simp only [hown, Bool.not_false, Bool.and_true, beq_self_eq_true,
          if_true]
        exact hxs
      · have hxqr : x ≠ qr := by
          intro hcontra
          rw [hcontra, hown] at hxg
          exact absurd hxg (by decide)
        simp only [hown, Bool.not_true, Bool.and_false, Bool.false_eq_true,
          if_false]
        apply List.mem_filter.mpr
        refine ⟨hxs, ?_⟩
        have hxid : (x.id == did) = false := by
          rcases hxid' : x.id == did with _ | _
          · rfl
          · exfalso
            apply hxqr
            apply List.inj_on_of_nodup_map hids hxs hqrmem
            have : x.id = did := by simpa using hxid'
            rw [this, hqrid]
        rw [hxid]
        rfl
  · apply List.all_eq_true.mpr
    intro x hx
    rcases List.mem_filter.mp hx with ⟨hxs, hxg⟩
    apply decide_eq_true
    rcases bulkDelete_post store qids bid UserType.manufacturer uid with
      hsame | ⟨sel, hfilter⟩
    · rw [hsame]
      exact hxs
    · rw [hfilter]
      apply List.mem_filter.mpr
      refine ⟨hxs, ?_⟩
      have hxg' : (x.generatedBy == uid) = false := by
        simpa using hxg
      simp [matchesDeleteQuery, hxg']

/-- C8 witness: the theorem applied to the store `[recA, recB]` (owned by
users 7 and 8), actor 7 listing with the filter `generatedBy = 8`, deleting
id 3 and bulk-deleting `[3]`. -/
theorem C8_manufacturer_scoping_witness :
    (getQRCodes [recA, recB] none none none (some 8)
        UserType.manufacturer 7 1 50).all
      (fun r => r.generatedBy == 7) = true ∧
    ([recA, recB].filter (fun x => !(x.generatedBy == 7))).all
      (fun x =>
        decide (x ∈ (deleteQRCode [recA, recB] 3 UserType.manufacturer 7).2)) =
      true ∧
    ([recA, recB].filter (fun x => !(x.generatedBy == 7))).all
      (fun x =>
        decide (x ∈ (bulkDeleteQRCodes [recA, recB] (some [3]) none
          UserType.manufacturer 7).2)) = true :=
  C8_manufacturer_scoping [recA, recB] none none none (some 8) 7 1 50 3
    (some [3]) none (by decide)

/-- The only error `generateUniqueQRCode` can throw is the
attempt-exhaustion message. -/
theorem generateUniqueQRCodeAux_error_msg (len : Nat) (sc : List String)
    (rnd : Nat → List Nat) (a rem : Nat) (m : String)
    (h : generateUniqueQRCodeAux len sc rnd a rem = Except.error m) :
    m = exhaustedMsg := by
  induction rem generalizing a with
  | zero =>
      rw [generateUniqueQRCodeAux] at h
      injection h with h'
      exact h'.symm
  | succ n ih =>
      rw [generateUniqueQRCodeAux] at h
      by_cases hc : sc.contains (renderCandidate len (rnd a))
      · rw [if_pos hc] at h
        exact ih _ h
      · rw [if_neg hc] at h
        simp at h

/-- If any slot of `generateCodeSlots` rejects, the whole call rejects with
the exhaustion message. -/
theorem generateCodeSlots_error_of_slot (len : Nat) (sc : List String)
    (rnds : Nat → Nat → List Nat) (l : List Nat) (i : Nat) (m : String)
    (hi : i ∈ l)
    (herr : generateUniqueQRCode len sc (rnds i) = Except.error m) :
    generateCodeSlots len sc rnds l = Except.error exhaustedMsg := by
  have hm : m = exhaustedMsg :=
    generateUniqueQRCodeAux_error_msg len sc (rnds i) 0 maxAttempts m herr
  induction l with
  | nil => cases hi
  | cons j js ih =>
      rw [generateCodeSlots]
      rcases List.mem_cons.mp hi with hji | hjs
      · rw [← hji, herr, hm]
      · cases hj : generateUniqueQRCode len sc (rnds j) with
        | error e =>
            rw [generateUniqueQRCodeAux_error_msg len sc (rnds j) 0
              maxAttempts e hj]
        | ok c =>
            rw [ih hjs]

/-- C5 counterexample: slot 0's random stream collides with the stored code
`"aaaaaaaa"` on all 100 attempts, so its `generateUniqueQRCode` throws;
slot 1 would deliver `"bbbbbbbb"`, yet the whole generation request fails
(the `Promise.all` rejection propagates to the handler's `catch`) and
nothing at all is persisted — the rest of the batch is aborted, not kept. -/
theorem C5_exhaustion_aborts_counterexample :
    generateUniqueQRCode 8 (List.map (fun r => r.code) [recA])
      (rndsStuck 1) = Except.ok "bbbbbbbb" ∧
    generateUniqueQRCode 8 (List.map (fun r => r.code) [recA])
      (rndsStuck 0) = Except.error exhaustedMsg ∧
    generateBulkQRCodes [recA] 2 8 7 [] "batch_y" rndsStuck 100 3 =
      (Except.error exhaustedMsg, [recA]) := by
  refine ⟨by decide, by decide, by decide⟩

/-- C5 (amended): a `GenerationExhausted` failure on any single slot aborts
the whole generation request: the handler reports the error and no code of
the batch is generated or persisted (the store is returned unchanged), the
opposite of continuing with the remaining slots. -/
theorem C5_slot_error_aborts_generation (store : Store)
    (quantity len gby idBase now : Nat) (md : List (String × String))
    (b : String) (rnds : Nat → Nat → List Nat) (i : Nat) (m : String)
    (hq : ¬ quantity > 10000) (hi : i < quantity)
    (herr : generateUniqueQRCode len (store.map (·.code)) (rnds i) =
      Except.error m) :
    generateBulkQRCodes store quantity len gby md b rnds idBase now =
      (Except.error exhaustedMsg, store) := by
  have hgen : generateMultipleUniqueQRCodes quantity len
      (store.map (·.code)) rnds = Except.error exhaustedMsg := by
    rw [generateMultipleUniqueQRCodes]
    exact generateCodeSlots_error_of_slot len (store.map (·.code)) rnds
      (List.range quantity) i m (List.mem_range.mpr hi) herr
  rw [generateBulkQRCodes, if_neg hq, hgen]

/-- C5 witness: the theorem applied to a three-slot request whose slot 0 is
stuck on the stored code. -/
theorem C5_slot_error_aborts_generation_witness :
    generateBulkQRCodes [recA] 3 8 7 [] "batch_z" rndsStuck 200 4 =
      (Except.error exhaustedMsg, [recA]) :=
  C5_slot_error_aborts_generation [recA] 3 8 7 200 4 [] "batch_z" rndsStuck 0
    exhaustedMsg (by decide) (by decide) (by decide)

/-- A code returned by `generateUniqueQRCode` is the rendering of one of
the random draws, and was absent from the store at check time. -/
theorem generateUniqueQRCodeAux_ok_shape (len : Nat) (sc : List String)
    (rnd : Nat → List Nat) (a rem : Nat) (c : String)
    (h : generateUniqueQRCodeAux len sc rnd a rem = Except.ok c) :
    (∃ k, c = renderCandidate len (rnd k)) ∧ sc.contains c = false := by
  induction rem generalizing a with
  | zero =>
      rw [generateUniqueQRCodeAux] at h
      simp at h
  | succ n ih =>
      rw [generateUniqueQRCodeAux] at h
      by_cases hc : sc.contains (renderCandidate len (rnd a))
      · rw [if_pos hc] at h
        exact ih _ h
      · rw [if_neg hc] at h
        injection h with h'
        constructor
        · exact ⟨a, h'.symm⟩
        · rw [← h']
          simpa using hc

/-- On success, `generateCodeSlots` returns one code per slot, each a
rendered random draw absent from the store at check time. -/
theorem generateCodeSlots_ok_shape (len : Nat) (sc : List String)
    (rnds : Nat → Nat → List Nat) (l : List Nat) (cs : List String)
    (h : generateCodeSlots len sc rnds l = Except.ok cs) :
    cs.length = l.length ∧
    ∀ c ∈ cs, (∃ i k, c = renderCandidate len (rnds i k)) ∧
      sc.contains c = false := by
  induction l generalizing cs with
  | nil =>
      rw [generateCodeSlots] at h
      injection h with h'
      subst h'
      simp
  | cons j js ih =>
      rw [generateCodeSlots] at h
      cases hj : generateUniqueQRCode len sc (rnds j) with
      | error e =>
          rw [hj] at h
          simp at h
      | ok c0 =>
          rw [hj] at h
          cases hrest : generateCodeSlots len sc rnds js with
          | error e =>
              rw [hrest] at h
              simp at h
          | ok cs0 =>
              rw [hrest] at h
              injection h with h'
              subst h'
              rcases ih cs0 hrest with ⟨hlen, hmem⟩
              refine ⟨by simp [hlen], ?_⟩
              intro c hc
              rcases List.mem_cons.mp hc with hch | hcs
              · subst hch
                rcases generateUniqueQRCodeAux_ok_shape len sc (rnds j) 0
                  maxAttempts c hj with ⟨⟨k, hk⟩, hnc⟩
                exact ⟨⟨j, k, hk⟩, hnc⟩
              · exact hmem c hcs

/-- Rendering bytes as hex doubles the length. -/
theorem flatMap_byteToHex_length (bs : List Nat) :
    (bs.flatMap byteToHex).length = 2 * bs.length := by
  induction bs with
  | nil => rfl
  | cons b bs ih =>
      simp only [List.flatMap_cons, List.length_append, ih, byteToHex]
      simp [Nat.mul_succ, Nat.add_comm]

/-- The length of a rendered candidate: `length` characters, capped by the
number of hex characters the drawn bytes provide. -/
theorem renderCandidate_length (len : Nat) (bs : List Nat) :
    (renderCandidate len bs).length = min len (2 * bs.length) := by
  have h1 : (renderCandidate len bs).length =
      ((bs.flatMap byteToHex).take len).length := rfl
  rw [h1, List.length_take, flatMap_byteToHex_length]

/-- Every character of a rendered candidate is lowercase hexadecimal. -/
theorem renderCandidate_chars (len : Nat) (bs : List Nat) :
    ∀ c ∈ (renderCandidate len bs).toList, isLowerHexChar c = true := by
  intro c hc
  have hc1 : c ∈ (bs.flatMap byteToHex).take len := hc
  have hc2 : c ∈ bs.flatMap byteToHex := List.mem_of_mem_take hc1
  rcases List.mem_flatMap.mp hc2 with ⟨b, _, hcb⟩
  have h16 : ∀ m, m < 16 → isLowerHexChar (hexDigit m) = true := by decide
  rcases List.mem_cons.mp hcb with h1 | h1
  · rw [h1]
    exact h16 _ (Nat.mod_lt _ (by norm_num))
  · rcases List.mem_cons.mp h1 with h2 | h2
    · rw [h2]
      exact h16 _ (Nat.mod_lt _ (by norm_num))
    · cases h2

/-- The batch numbers of the built documents are `1 .. codes.length` in
order. -/
theorem mkBatchDocs_map_batchNumber (codes : List String) (g : Nat)
    (b : String) (q : Nat) (md : List (String × String)) (idBase now : Nat) :
    (mkBatchDocs codes g b q md idBase now).map (·.batchNumber) =
      (List.range codes.length).map (fun n => n + 1) := by
  rw [mkBatchDocs, List.map_map]
  have hcomp : ((fun r : QRCodeRecord => r.batchNumber) ∘
      (fun x : Nat × String =>
        match x with
        | (i, code) =>
          ({ id := idBase + i, code := code
             status := QRCodeStatus.unredeemed, generatedBy := g
             batchId := b, quantity := q, batchNumber := i + 1
             isActive := true, redeemedAt := none, redeemedBy := none
             metadata := md, createdAt := now : QRCodeRecord }))) =
      (fun n => n + 1) ∘ Prod.fst := by
    funext p
    rcases p with ⟨i, c⟩
    rfl
  rw [hcomp, ← List.map_map, List.enum_map_fst]

/-- The codes of the built documents are the generated codes in order. -/
theorem mkBatchDocs_map_code (codes : List String) (g : Nat) (b : String)
    (q : Nat) (md : List (String × String)) (idBase now : Nat) :
    (mkBatchDocs codes g b q md idBase now).map (·.code) = codes := by
  rw [mkBatchDocs, List.map_map]
  have hcomp : ((fun r : QRCodeRecord => r.code) ∘
      (fun x : Nat × String =>
        match x with
        | (i, code) =>
          ({ id := idBase + i, code := code,
             status := QRCodeStatus.unredeemed, generatedBy := g,
             batchId := b, quantity := q, batchNumber := i + 1,
             isActive := true, redeemedAt := none, redeemedBy := none,
             metadata := md, createdAt := now : QRCodeRecord }))) =
      (Prod.snd : Nat × String → String) := by
    funext p
    rcases p with ⟨i, c⟩
    rfl
  rw [hcomp, List.enum_map_snd]

/-- There is one built document per generated code. -/
theorem mkBatchDocs_length (codes : List String) (g : Nat) (b : String)
    (q : Nat) (md : List (String × String)) (idBase now : Nat) :
    (mkBatchDocs codes g b q md idBase now).length = codes.length := by
  simp [mkBatchDocs]

/-- Every built document carries the request's batch id and quantity. -/
theorem mkBatchDocs_mem (codes : List String) (g : Nat) (b : String)
    (q : Nat) (md : List (String × String)) (idBase now : Nat)
    (d : QRCodeRecord) (hd : d ∈ mkBatchDocs codes g b q md idBase now) :
    d.batchId = b ∧ d.quantity = q := by
  rw [mkBatchDocs] at hd
  rcases List.mem_map.mp hd with ⟨p, _, hdp⟩
  rcases p with ⟨i, c⟩
  rw [← hdp]
  exact ⟨rfl, rfl⟩

/-- The unordered bulk insert appends exactly the documents it reports as
inserted. -/
theorem insertManyUnordered_fst (st : Store) (ds : List QRCodeRecord) :
    (insertManyUnordered st ds).1 = st ++ (insertManyUnordered st ds).2 := by
  induction ds generalizing st with
  | nil => simp [insertManyUnordered]
  | cons d ds ih =>
      rw [insertManyUnordered]
      by_cases hc : (st.map (·.code)).contains d.code
      · rw [if_pos hc]
        exact ih st
      · rw [if_neg hc]
        simp only
        rw [ih (st ++ [d])]
        simp

/-- The inserted documents are a subsequence of the attempted documents:
duplicate-key drops never reorder or duplicate. -/
theorem insertManyUnordered_sublist (st : Store) (ds : List QRCodeRecord) :
    List.Sublist (insertManyUnordered st ds).2 ds := by
  induction ds generalizing st with
  | nil => simp [insertManyUnordered]
  | cons d ds ih =>
      rw [insertManyUnordered]
      by_cases hc : (st.map (·.code)).contains d.code
      · rw [if_pos hc]
        exact List.Sublist.cons d (ih st)
      · rw [if_neg hc]
        exact List.Sublist.cons₂ d (ih (st ++ [d]))

/-- Decomposition of a successful `generateBulkQRCodes` run: the quantity
passed validation, generation succeeded with some list of codes, and the
response and post-state are built from the unordered bulk insert of the
documents made from those codes. -/
theorem generateBulk_ok_decomp (store : Store)
    (quantity len gby idBase now : Nat) (md : List (String × String))
    (b : String) (rnds : Nat → Nat → List Nat) (s : GenerateSuccess)
    (st' : Store)
    (h : generateBulkQRCodes store quantity len gby md b rnds idBase now =
      (Except.ok s, st')) :
    ∃ codes,
      generateMultipleUniqueQRCodes quantity len (store.map (·.code)) rnds =
        Except.ok codes ∧
      s.batchId = b ∧
      s.quantity = (insertManyUnordered store
        (mkBatchDocs codes gby b quantity md idBase now)).2.length ∧
      s.codes = (insertManyUnordered store
        (mkBatchDocs codes gby b quantity md idBase now)).2.map (·.code) ∧
      st' = (insertManyUnordered store
        (mkBatchDocs codes gby b quantity md idBase now)).1 := by
  rw [generateBulkQRCodes] at h
  by_cases hq : quantity > 10000
  · rw [if_pos hq] at h
    simp at h
  · rw [if_neg hq] at h
    cases hgen : generateMultipleUniqueQRCodes quantity len
        (store.map (·.code)) rnds with
    | error e =>
        rw [hgen] at h
        simp at h
    | ok codes =>
        rw [hgen] at h
        dsimp only at h
        by_cases hres : insertManyResolves store
            (mkBatchDocs codes gby b quantity md idBase now) = true
        · rw [if_pos hres] at h
          simp only [Prod.mk.injEq] at h
          rcases h with ⟨h1, h2⟩
          injection h1 with h1'
          refine ⟨codes, rfl, ?_, ?_, ?_, h2.symm⟩
          · rw [← h1']
          · rw [← h1']
          · rw [← h1']
        · rw [if_neg hres] at h
          simp at h

/-- C2 counterexample: a three-code request whose slots 0 and 1 draw the
same candidate `"aaaaaaaa"` (slots are checked concurrently without
reserving each other, so both pass the existence check).  The unordered
insert drops the duplicate and the awaited `insertMany` rejects with a
`BulkWriteError`, so the handler answers with an error — but the two
non-colliding records are already persisted, K = 2 of Q = 3, and their
`batchNumber` values are `[1, 3]`, not the contiguous set `{1, 2}`: the
numbers are assigned before the insert and never renumbered after a drop. -/
theorem C2_batch_gap_counterexample :
    (generateBulkQRCodes [] 3 8 7 [] "batch_x" rndsDup 100 0).1 =
      Except.error bulkWriteErrMsg ∧
    ((generateBulkQRCodes [] 3 8 7 [] "batch_x" rndsDup 100 0).2.filter
        (fun r => r.batchId == "batch_x")).length = 2 ∧
    ((generateBulkQRCodes [] 3 8 7 [] "batch_x" rndsDup 100 0).2.filter
        (fun r => r.batchId == "batch_x")).map (fun r => r.batchNumber) =
      [1, 3] ∧
    ¬ List.Perm [1, 3] ((List.range 2).map (fun n => n + 1)) := by
  refine ⟨by decide, by decide, by decide, by decide⟩

/-- Restricting the post-insert store to a fresh batch id yields exactly
the documents the bulk insert reported as inserted. -/
theorem generateBulk_filter_batch (store : Store) (codes : List String)
    (gby : Nat) (b : String) (q : Nat) (md : List (String × String))
    (idBase now : Nat)
    (hfresh : store.all (fun r => !(r.batchId == b)) = true) :
    ((insertManyUnordered store
        (mkBatchDocs codes gby b q md idBase now)).1).filter
      (fun r => r.batchId == b) =
    (insertManyUnordered store (mkBatchDocs codes gby b q md idBase now)).2 := by
  rw [insertManyUnordered_fst, List.filter_append]
  have h1 : store.filter (fun r => r.batchId == b) = [] := by
    apply List.filter_eq_nil_iff.mpr
    intro r hr
    have hr2 := List.all_eq_true.mp hfresh r hr
    simp only [Bool.not_eq_eq_eq_not, Bool.not_true] at hr2
    simp [hr2]
  have h2 : ((insertManyUnordered store
      (mkBatchDocs codes gby b q md idBase now)).2).filter
        (fun r => r.batchId == b) =
      (insertManyUnordered store
        (mkBatchDocs codes gby b q md idBase now)).2 := by
    apply List.filter_eq_self.mpr
    intro d hd
    have hd2 : d ∈ mkBatchDocs codes gby b q md idBase now :=
      (insertManyUnordered_sublist store _).subset hd
    have hb := (mkBatchDocs_mem codes gby b q md idBase now d hd2).1
    simp [hb]
  rw [h1, h2, List.nil_append]

/-- A store holding no record of batch `b` contributes nothing to the
batch's filter. -/
theorem filter_batch_fresh (store : Store) (b : String)
    (hfresh : store.all (fun r => !(r.batchId == b)) = true) :
    store.filter (fun r => r.batchId == b) = [] := by
  apply List.filter_eq_nil_iff.mpr
  intro r hr
  have hr2 := List.all_eq_true.mp hfresh r hr
  simp only [Bool.not_eq_eq_eq_not, Bool.not_true] at hr2
  simp [hr2]

/-- Whatever the bulk insert drops, the persisted batch numbers of a fresh
batch form a subsequence of `1 .. Q`. -/
theorem insertMany_batch_sublist (store : Store) (codes : List String)
    (gby : Nat) (b : String) (quantity : Nat) (md : List (String × String))
    (idBase now : Nat)
    (hfresh : store.all (fun r => !(r.batchId == b)) = true)
    (hcl : codes.length = quantity) :
    List.Sublist ((((insertManyUnordered store
        (mkBatchDocs codes gby b quantity md idBase now)).1).filter
          (fun r => r.batchId == b)).map (fun r => r.batchNumber))
      ((List.range quantity).map (fun n => n + 1)) := by
  rw [generateBulk_filter_batch store codes gby b quantity md idBase now
    hfresh]
  have hmapped := (insertManyUnordered_sublist store
    (mkBatchDocs codes gby b quantity md idBase now)).map
      (fun r => r.batchNumber)
  rw [mkBatchDocs_map_batchNumber, hcl] at hmapped
  exact hmapped

/-- When the insert promise resolves, nothing was dropped and the persisted
batch numbers of a fresh batch are exactly `1 .. Q`. -/
theorem insertMany_batch_full (store : Store) (codes : List String)
    (gby : Nat) (b : String) (quantity : Nat) (md : List (String × String))
    (idBase now : Nat)
    (hfresh : store.all (fun r => !(r.batchId == b)) = true)
    (hcl : codes.length = quantity)
    (hres : insertManyResolves store
      (mkBatchDocs codes gby b quantity md idBase now) = true) :
    (((insertManyUnordered store
        (mkBatchDocs codes gby b quantity md idBase now)).1).filter
      (fun r => r.batchId == b)).map (fun r => r.batchNumber) =
      (List.range quantity).map (fun n => n + 1) := by
  have hlen : (insertManyUnordered store
      (mkBatchDocs codes gby b quantity md idBase now)).2.length =
      (mkBatchDocs codes gby b quantity md idBase now).length := by
    simpa [insertManyResolves] using hres
  have hins_eq := (insertManyUnordered_sublist store
    (mkBatchDocs codes gby b quantity md idBase now)).eq_of_length hlen
  rw [generateBulk_filter_batch store codes gby b quantity md idBase now
    hfresh, hins_eq, mkBatchDocs_map_batchNumber, hcl]

/-- C2 (amended): after a generation request against a store fresh for the
batch id, whatever the outcome, the persisted `batchNumber` values of that
batch form a subsequence of `1 .. Q` — pairwise distinct, increasing,
within bounds — but not necessarily the contiguous set `{1 .. K}`: when the
unordered insert drops a duplicate-key record, the awaited `insertMany`
rejects, the handler answers with an error, and the K non-colliding records
stay persisted with a gap wherever a dropped record sat.  The handler
reports success only when all Q records persist, and exactly then the
values are the full contiguous set `{1 .. Q}`. -/
theorem C2_batchNumbers_subseq (store : Store)
    (quantity len gby idBase now : Nat) (md : List (String × String))
    (b : String) (rnds : Nat → Nat → List Nat)
    (res : Except String GenerateSuccess) (st' : Store)
    (hfresh : store.all (fun r => !(r.batchId == b)) = true)
    (h : generateBulkQRCodes store quantity len gby md b rnds idBase now =
      (res, st')) :
    List.Sublist ((st'.filter (fun r => r.batchId == b)).map
        (fun r => r.batchNumber))
      ((List.range quantity).map (fun n => n + 1)) ∧
    (res.isOk = true →
      (st'.filter (fun r => r.batchId == b)).map (fun r => r.batchNumber) =
        (List.range quantity).map (fun n => n + 1)) := by
  rw [generateBulkQRCodes] at h
  by_cases hq : quantity > 10000
  · rw [if_pos hq] at h
    simp only [Prod.mk.injEq] at h
    rcases h with ⟨h1, h2⟩
    subst h2
    constructor
    · rw [filter_batch_fresh store b hfresh]
      simp
    · intro hok
      rw [← h1] at hok
      simp [Except.isOk, Except.toBool] at hok
  · rw [if_neg hq] at h
    cases hgen : generateMultipleUniqueQRCodes quantity len
        (store.map (·.code)) rnds with
    | error e =>
        rw [hgen] at h
        simp only [Prod.mk.injEq] at h
        rcases h with ⟨h1, h2⟩
        subst h2
        constructor
        · rw [filter_batch_fresh store b hfresh]
          simp
        · intro hok
          rw [← h1] at hok
          simp [Except.isOk, Except.toBool] at hok
    | ok codes =>
        rw [hgen] at h
        have hcl : codes.length = quantity := by
          rw [generateMultipleUniqueQRCodes] at hgen
          have := (generateCodeSlots_ok_shape len (store.map (·.code)) rnds
            (List.range quantity) codes hgen).1
          simpa using this
        dsimp only at h
        by_cases hres : insertManyResolves store
            (mkBatchDocs codes gby b quantity md idBase now) = true
        · rw [if_pos hres] at h
          simp only [Prod.mk.injEq] at h
          rcases h with ⟨h1, h2⟩
          subst h2
          have hfull := insertMany_batch_full store codes gby b quantity md
            idBase now hfresh hcl hres
          constructor
          · rw [hfull]
          · intro _
            exact hfull
        · rw [if_neg hres] at h
          simp only [Prod.mk.injEq] at h
          rcases h with ⟨h1, h2⟩
          subst h2
          constructor
          · exact insertMany_batch_sublist store codes gby b quantity md
              idBase now hfresh hcl
          · intro hok
            rw [← h1] at hok
            simp [Except.isOk, Except.toBool] at hok

/-- C2 witness: the theorem applied to a two-code request on the empty
store whose two slots draw distinct candidates, so both records persist
with batch numbers 1 and 2. -/
theorem C2_batchNumbers_subseq_witness :
    List.Sublist ((storeW.filter
        (fun r => r.batchId == "batch_w")).map (fun r => r.batchNumber))
      ((List.range 2).map (fun n => n + 1)) ∧
    ((Except.ok genOutW : Except String GenerateSuccess).isOk = true →
      (storeW.filter
        (fun r => r.batchId == "batch_w")).map (fun r => r.batchNumber) =
        (List.range 2).map (fun n => n + 1)) :=
  C2_batchNumbers_subseq [] 2 10 7 300 5 [] "batch_w" rndsDistinct
    (Except.ok genOutW) storeW (by decide) (by decide)

/-- C7: a `GenerateCodes(quantity = 5, length = 10)` request on a store
holding no record of the fresh batch id, with five-byte random draws
(`randomBytes(ceil(10/2))`), that persists all five records (generation did
not under-deliver) returns exactly 5 codes, each ten lowercase hexadecimal
characters; the five persisted records of the batch all carry the shared
batch id and quantity 5, and their `batchNumber` values are 1 through 5 in
generation order. -/
theorem C7_scenario_A (store : Store) (gby idBase now : Nat)
    (md : List (String × String)) (b : String) (rnds : Nat → Nat → List Nat)
    (s : GenerateSuccess) (st' : Store)
    (hbytes : ∀ i k, (rnds i k).length = 5)
    (hfresh : store.all (fun r => !(r.batchId == b)) = true)
    (h : generateBulkQRCodes store 5 10 gby md b rnds idBase now =
      (Except.ok s, st'))
    (hfull : s.quantity = 5) :
    s.codes.length = 5 ∧
    s.codes.all
      (fun c => decide (c.length = 10) && c.toList.all isLowerHexChar) =
      true ∧
    (st'.filter (fun r => r.batchId == b)).all
      (fun r => r.batchId == b && r.quantity == 5) = true ∧
    (st'.filter (fun r => r.batchId == b)).map (fun r => r.batchNumber) =
      [1, 2, 3, 4, 5] := by
  rcases generateBulk_ok_decomp store 5 10 gby idBase now md b rnds s st' h
    with ⟨codes, hgen, _, hsq, hsc, hst⟩
  rw [generateMultipleUniqueQRCodes] at hgen
  rcases generateCodeSlots_ok_shape 10 (store.map (·.code)) rnds
    (List.range 5) codes hgen with ⟨hcl0, hshape⟩
  have hcl : codes.length = 5 := by simpa using hcl0
  have hdlen : (mkBatchDocs codes gby b 5 md idBase now).length = 5 := by
    rw [mkBatchDocs_length, hcl]
  have hins_eq : (insertManyUnordered store
      (mkBatchDocs codes gby b 5 md idBase now)).2 =
      mkBatchDocs codes gby b 5 md idBase now := by
    apply (insertManyUnordered_sublist store _).eq_of_length
    rw [hdlen, ← hsq, hfull]
  have hcodes_eq : s.codes = codes := by
    rw [hsc, hins_eq, mkBatchDocs_map_code]
  have hfilter : st'.filter (fun r => r.batchId == b) =
      mkBatchDocs codes gby b 5 md idBase now := by
    rw [hst, generateBulk_filter_batch store codes gby b 5 md idBase now
      hfresh, hins_eq]
  refine ⟨?_, ?_, ?_, ?_⟩
  · rw [hcodes_eq, hcl]
  · apply List.all_eq_true.mpr
    intro c hc
    rw [hcodes_eq] at hc
    rcases hshape c hc with ⟨⟨i, k, hck⟩, _⟩
    apply (Bool.and_eq_true _ _).mpr
    constructor
    · apply decide_eq_true
      rw [hck, renderCandidate_length, hbytes i k]
      decide
    · apply List.all_eq_true.mpr
      intro ch hch
      rw [hck] at hch
      exact renderCandidate_chars 10 (rnds i k) ch hch
  · apply List.all_eq_true.mpr
    intro r hr
    rw [hfilter] at hr
    rcases mkBatchDocs_mem codes gby b 5 md idBase now r hr with ⟨hb, hq⟩
    simp [hb, hq]
  · rw [hfilter, mkBatchDocs_map_batchNumber, hcl]
    rfl

/-- C7 witness: the theorem applied to a five-code request on the empty
store with the pairwise-distinct five-byte draws of `rndsDistinct`. -/
theorem C7_scenario_A_witness :
    genOutV.codes.length = 5 ∧
    genOutV.codes.all
      (fun c => decide (c.length = 10) && c.toList.all isLowerHexChar) =
      true ∧
    (storeV.filter (fun r => r.batchId == "batch_v")).all
      (fun r => r.batchId == "batch_v" && r.quantity == 5) = true ∧
    (storeV.filter (fun r => r.batchId == "batch_v")).map
      (fun r => r.batchNumber) = [1, 2, 3, 4, 5] :=
  C7_scenario_A [] 7 400 6 [] "batch_v" rndsDistinct genOutV storeV
    (fun _ _ => rfl) (by decide) (by decide) (by decide)

end Rhythmic
